import Mathlib

/-!
Shallow embedding of the `zonefile-crds` schema crate (`src/lib.rs`).

The crate defines the custom-resource data contract for a ZoneFile
controller: the `ZoneFileSpec` and `ZoneFileStatus` structures, the
backreference label constant `TARGET_ZONEFILE_LABEL`, and the single
method `ZoneFile::zone_ref`, which resolves the optional namespace of
every raw `ZoneRef` in `spec.zone_refs` against the owning resource's
own metadata namespace.

Rust `Vec` is embedded as `List`, `Option` as `Option`, `BTreeMap`
as an association list, and `u32` as `Fin u32Size` (naturals below
`2 ^ 32`).
-/

/-- Number of distinct values of the Rust `u32` type: `2 ^ 32`. -/
def u32Size : Nat := 2 ^ 32

/-- `ZoneRef` from the `kubizone_crds` crate, as used by `src/lib.rs`:
a reference to an upstream zone by `name`, with an optional `namespace`. -/
structure ZoneRef where
  name : String
  «namespace» : Option String
deriving Repr, DecidableEq

/-- `ZoneFileSpec` from `src/lib.rs`: the ordered list of zone
references plus the optional override of the output config map name. -/
structure ZoneFileSpec where
  zone_refs : List ZoneRef
  config_map_name : Option String
deriving Repr, DecidableEq

/-- `ZoneFileStatus` from `src/lib.rs`: two string-keyed maps, `hash`
(reference key to last observed content fingerprint) and `serial`
(reference key to the last assigned 32-bit serial number). -/
structure ZoneFileStatus where
  hash : List (String × String)
  serial : List (String × Fin u32Size)
deriving Repr, DecidableEq

/-- The Kubernetes object metadata fields that the crate reads through
`kube::ResourceExt`: the resource's own name and namespace, both of
which are optional at the API level. -/
structure ObjectMeta where
  name : Option String
  «namespace» : Option String
deriving Repr, DecidableEq

/-- The `ZoneFile` custom resource generated by the `CustomResource`
derive in `src/lib.rs`: metadata, a `ZoneFileSpec`, and an optional
`ZoneFileStatus`. -/
structure ZoneFile where
  metadata : ObjectMeta
  spec : ZoneFileSpec
  status : Option ZoneFileStatus
deriving Repr, DecidableEq

/-- `TARGET_ZONEFILE_LABEL` from `src/lib.rs`: the label attached to
upstream `Zone` resources as a backreference to the `ZoneFile`. -/
def TARGET_ZONEFILE_LABEL : String := "kubi.zone/zonefile"

/-- `kube::ResourceExt::namespace`: returns the resource's metadata
namespace, an `Option` since cluster-scoped resources lack one. -/
def ZoneFile.«namespace» (zf : ZoneFile) : Option String :=
  zf.metadata.«namespace»

/-- The body of the closure inside `ZoneFile::zone_ref` in `src/lib.rs`:
build a `ZoneRef` with the same `name`, and with `namespace` equal to
the raw reference's namespace if present, otherwise the owner's
namespace (`zone_ref.namespace.as_ref().or(self.namespace().as_ref()).cloned()`). -/
def resolveZoneRef (owner : Option String) (zr : ZoneRef) : ZoneRef :=
  { name := zr.name
    «namespace» :=
      match zr.«namespace» with
      | some ns => some ns
      | none => owner }

/-- `ZoneFile::zone_ref` from `src/lib.rs`: map the resolving closure
over `spec.zone_refs` and collect the results. -/
def ZoneFile.zone_ref (zf : ZoneFile) : List ZoneRef :=
  zf.spec.zone_refs.map (resolveZoneRef zf.«namespace»)

/-- Deserialization of `ZoneFileSpec` from its two fields, mirroring
the serde derive in `src/lib.rs`: `config_map_name` carries
`#[serde(default)]`, so an absent field (`none` here) becomes
`Option::default()`, which is `None`. -/
def deserializeZoneFileSpec (zoneRefs : List ZoneRef)
    (configMapNameField : Option String) : ZoneFileSpec :=
  { zone_refs := zoneRefs
    config_map_name :=
      match configMapNameField with
      | some s => some s
      | none => none }

/-- Modelled from the spec: the controller that consumes this crate is
not under `src/`; per the spec, the output artifact's name is
`spec.configMapName` when supplied, otherwise the ZoneFile resource's
own name. -/
def outputArtifactName (zf : ZoneFile) : Option String :=
  match zf.spec.config_map_name with
  | some n => some n
  | none => zf.metadata.name

/-- A concrete `ZoneFile` whose owning resource has no metadata
namespace and whose single zone reference has no namespace either. -/
def noNamespaceZoneFile : ZoneFile :=
  { metadata := { name := some "zf", «namespace» := none }
    spec :=
      { zone_refs := [{ name := "a", «namespace» := none }]
        config_map_name := none }
    status := none }

/-- A concrete `ZoneFile` in namespace `default` with one
namespace-less reference and one fully qualified reference. -/
def sampleZoneFile : ZoneFile :=
  { metadata := { name := some "zf", «namespace» := some "default" }
    spec :=
      { zone_refs :=
          [{ name := "a", «namespace» := none },
           { name := "b", «namespace» := some "other" }]
        config_map_name := none }
    status := none }

/-- The resolving closure is idempotent in its reference argument when
the owner namespace is held fixed. -/
lemma resolveZoneRef_idem (owner : Option String) (zr : ZoneRef) :
    resolveZoneRef owner (resolveZoneRef owner zr) = resolveZoneRef owner zr := by
  cases zr with
  | mk n ns =>
    cases ns with
    | some x => rfl
    | none => cases owner <;> rfl

/-- C1: for a `ZoneFile` whose owning resource has namespace `N`, the
`i`-th entry of `zone_ref()` keeps the `i`-th raw entry's name and has
namespace `Some X` when the raw entry's namespace is `Some X`, and
`Some N` when it is `None`. -/
theorem c1_zone_ref_namespace_defaulting (zf : ZoneFile) (N : String)
    (hN : zf.metadata.«namespace» = some N)
    (i : Nat) (r : ZoneRef) (hr : zf.spec.zone_refs.get? i = some r) :
    zf.zone_ref.get? i =
      some { name := r.name, «namespace» := some ((r.«namespace»).getD N) } := by
  have hmap : zf.zone_ref.get? i = (zf.spec.zone_refs.get? i).map
      (resolveZoneRef zf.«namespace») := by
    simp [ZoneFile.zone_ref, List.get?_map]
  rw [hmap, hr]
  cases hns : r.«namespace» with
  | some x => simp [resolveZoneRef, ZoneFile.«namespace», hns]
  | none => simp [resolveZoneRef, ZoneFile.«namespace», hN, hns]

/-- Witness for C1 on `sampleZoneFile`, at both a namespace-less and a
fully qualified reference. -/
theorem c1_zone_ref_namespace_defaulting_witness :
    sampleZoneFile.zone_ref.get? 0 =
      some { name := "a", «namespace» := some "default" } ∧
    sampleZoneFile.zone_ref.get? 1 =
      some { name := "b", «namespace» := some "other" } := by
  constructor
  · exact c1_zone_ref_namespace_defaulting sampleZoneFile "default" rfl 0
      { name := "a", «namespace» := none } rfl
  · exact c1_zone_ref_namespace_defaulting sampleZoneFile "default" rfl 1
      { name := "b", «namespace» := some "other" } rfl

/-- C2 counterexample: the claim that every entry of `zone_ref()` has a
populated namespace is false as stated — when the owning resource has
no metadata namespace and a raw reference has no namespace either, the
resolved namespace is `None`. -/
theorem c2_always_some_counterexample :
    ¬ ∀ zf : ZoneFile, ∀ r ∈ zf.zone_ref, (r.«namespace»).isSome = true := by
  intro h
  have hmem : ({ name := "a", «namespace» := none } : ZoneRef) ∈
      noNamespaceZoneFile.zone_ref := by decide
  have := h noNamespaceZoneFile _ hmem
  simp at this

/-- C2 amended: for every `ZoneFile` whose owning resource has a
metadata namespace, every entry of `zone_ref()` has its namespace
populated (`isSome`). -/
theorem c2_namespace_populated (zf : ZoneFile)
    (h : (zf.metadata.«namespace»).isSome = true) :
    ∀ r ∈ zf.zone_ref, (r.«namespace»).isSome = true := by
  intro r hr
  rcases List.mem_map.mp hr with ⟨zr, _, hres⟩
  subst hres
  cases hzr : zr.«namespace» with
  | some x => simp [resolveZoneRef, hzr]
  | none => simpa [resolveZoneRef, hzr, ZoneFile.«namespace»] using h

/-- Witness for C2 amended: a concrete resolved entry of
`sampleZoneFile.zone_ref` has a populated namespace. -/
theorem c2_namespace_populated_witness :
    ({ name := "a", «namespace» := some "default" } : ZoneRef) ∈
      sampleZoneFile.zone_ref ∧
    (({ name := "a", «namespace» := some "default" } : ZoneRef).«namespace»).isSome = true :=
  ⟨by decide, c2_namespace_populated sampleZoneFile rfl
    { name := "a", «namespace» := some "default" } (by decide)⟩

/-- C3: `zone_ref()` has the same length as `spec.zone_refs`, and its
`i`-th entry is exactly the resolution of the `i`-th raw entry, for
every index. -/
theorem c3_order_and_length_preserved (zf : ZoneFile) :
    zf.zone_ref.length = zf.spec.zone_refs.length ∧
    ∀ i : Nat, zf.zone_ref.get? i =
      (zf.spec.zone_refs.get? i).map (resolveZoneRef zf.«namespace») := by
  refine ⟨?_, ?_⟩
  · simp [ZoneFile.zone_ref]
  · intro i
    simp [ZoneFile.zone_ref, List.get?_map]

/-- C4: `zone_ref()` is a pure observation — its result depends only on
`spec.zone_refs` and the owning resource's metadata namespace; any two
`ZoneFile` values agreeing on those two fields produce identical
results, whatever their name, status or `config_map_name`. -/
theorem c4_result_depends_only_on_refs_and_namespace (f g : ZoneFile)
    (hrefs : f.spec.zone_refs = g.spec.zone_refs)
    (hns : f.metadata.«namespace» = g.metadata.«namespace») :
    f.zone_ref = g.zone_ref := by
  simp [ZoneFile.zone_ref, ZoneFile.«namespace», hrefs, hns]

/-- Witness for C4: two `ZoneFile`s differing in name, status and
`config_map_name` but agreeing on `zone_refs` and namespace yield the
same `zone_ref()` output. -/
theorem c4_result_depends_only_on_refs_and_namespace_witness :
    ZoneFile.zone_ref
      { metadata := { name := some "x", «namespace» := some "default" }
        spec := { zone_refs := [{ name := "a", «namespace» := none }]
                  config_map_name := some "cm" }
        status := some { hash := [("k", "h")], serial := [] } } =
    ZoneFile.zone_ref
      { metadata := { name := some "y", «namespace» := some "default" }
        spec := { zone_refs := [{ name := "a", «namespace» := none }]
                  config_map_name := none }
        status := none } :=
  c4_result_depends_only_on_refs_and_namespace _ _ rfl rfl

/-- C5: every value in the `serial` map of a `ZoneFileStatus` is a
32-bit unsigned integer, i.e. lies in `[0, 2 ^ 32 - 1]`, and the
maximum representable value `u32Size - 1` is `4294967295`. -/
theorem c5_serial_values_are_u32 (st : ZoneFileStatus) (k : String)
    (v : Fin u32Size) (h : (k, v) ∈ st.serial) :
    v.val ≤ u32Size - 1 ∧ u32Size - 1 = 4294967295 := by
  refine ⟨?_, rfl⟩
  exact Nat.le_sub_one_of_lt v.isLt

/-- Witness for C5 on a concrete status holding the maximum serial. -/
theorem c5_serial_values_are_u32_witness :
    (⟨4294967295, by decide⟩ : Fin u32Size).val ≤ u32Size - 1 ∧
      u32Size - 1 = 4294967295 :=
  c5_serial_values_are_u32
    { hash := [("default/a", "h")],
      serial := [("default/a", ⟨4294967295, by decide⟩)] }
    "default/a" ⟨4294967295, by decide⟩ (List.mem_singleton.mpr rfl)

/-- C6: a `ZoneFileStatus` consists of exactly its two string-keyed
maps — two statuses are equal precisely when their `hash` maps and
their `serial` maps are equal. -/
theorem c6_status_is_exactly_two_maps (s t : ZoneFileStatus) :
    s = t ↔ s.hash = t.hash ∧ s.serial = t.serial := by
  constructor
  · intro h
    exact ⟨congrArg ZoneFileStatus.hash h, congrArg ZoneFileStatus.serial h⟩
  · rintro ⟨h1, h2⟩
    cases s
    cases t
    cases h1
    cases h2
    rfl

/-- C7: the backreference label key attached to upstream `Zone`
resources is exactly the string `kubi.zone/zonefile`. -/
theorem c7_target_zonefile_label :
    TARGET_ZONEFILE_LABEL = "kubi.zone/zonefile" := rfl

/-- C8: `config_map_name` is optional — a spec deserialized without the
field gets `none`, one deserialized with the field gets that string;
and (modelled from the spec) the output artifact's name is the
override when present, otherwise the ZoneFile's own name. -/
theorem c8_config_map_name_optional :
    (∀ zrs : List ZoneRef,
      (deserializeZoneFileSpec zrs none).config_map_name = none) ∧
    (∀ zrs : List ZoneRef, ∀ s : String,
      (deserializeZoneFileSpec zrs (some s)).config_map_name = some s) ∧
    (∀ zf : ZoneFile, zf.spec.config_map_name = none →
      outputArtifactName zf = zf.metadata.name) ∧
    (∀ zf : ZoneFile, ∀ s : String, zf.spec.config_map_name = some s →
      outputArtifactName zf = some s) := by
  refine ⟨fun zrs => rfl, fun zrs s => rfl, fun zf h => ?_, fun zf s h => ?_⟩
  · simp [outputArtifactName, h]
  · simp [outputArtifactName, h]

/-- Witness for C8: on `sampleZoneFile` (no override) the artifact name
is the resource's own name, and an override is respected. -/
theorem c8_config_map_name_optional_witness :
    outputArtifactName sampleZoneFile = some "zf" ∧
    outputArtifactName
      { sampleZoneFile with
        spec := { sampleZoneFile.spec with config_map_name := some "cm" } } =
      some "cm" :=
  ⟨c8_config_map_name_optional.2.2.1 sampleZoneFile rfl,
   c8_config_map_name_optional.2.2.2 _ "cm" rfl⟩

/-- C9: resolution is idempotent — a `ZoneFile` with the same owner
namespace whose raw references are the output of another's
`zone_ref()` resolves to exactly that output again. -/
theorem c9_zone_ref_idempotent (F G : ZoneFile)
    (hns : G.metadata.«namespace» = F.metadata.«namespace»)
    (hrefs : G.spec.zone_refs = F.zone_ref) :
    G.zone_ref = F.zone_ref := by
  show G.spec.zone_refs.map (resolveZoneRef G.«namespace») = F.zone_ref
  rw [hrefs]
  show (F.spec.zone_refs.map (resolveZoneRef F.«namespace»)).map
      (resolveZoneRef G.«namespace») =
    F.spec.zone_refs.map (resolveZoneRef F.«namespace»)
  rw [List.map_map]
  have hgf : G.«namespace» = F.«namespace» := by
    simp [ZoneFile.«namespace», hns]
  rw [hgf]
  exact List.map_congr_left fun zr _ => resolveZoneRef_idem F.«namespace» zr

/-- Witness for C9: a second `ZoneFile` whose raw references are
`sampleZoneFile.zone_ref` resolves to the same list. -/
theorem c9_zone_ref_idempotent_witness :
    ZoneFile.zone_ref
      { metadata := { name := some "zf2", «namespace» := some "default" }
        spec := { zone_refs := sampleZoneFile.zone_ref
                  config_map_name := none }
        status := none } =
    sampleZoneFile.zone_ref :=
  c9_zone_ref_idempotent sampleZoneFile _ rfl rfl

/-- C10: `zone_ref()` is total — it is defined on every `ZoneFile`
(including one whose owner has no namespace), always returns a list of
the same length as `spec.zone_refs`, and returns `[]` exactly when
`spec.zone_refs` is empty. -/
theorem c10_zone_ref_total (zf : ZoneFile) :
    zf.zone_ref.length = zf.spec.zone_refs.length ∧
    (zf.spec.zone_refs = [] ↔ zf.zone_ref = []) := by
  constructor
  · simp [ZoneFile.zone_ref]
  · constructor
    · intro h
      simp [ZoneFile.zone_ref, h]
    · intro h
      simpa [ZoneFile.zone_ref] using h

/-- Witness for C10 on a `ZoneFile` with no namespace and an empty
reference list. -/
theorem c10_zone_ref_total_witness :
    (ZoneFile.zone_ref
      { metadata := { name := none, «namespace» := none }
        spec := { zone_refs := [], config_map_name := none }
        status := none }) = [] :=
  (c10_zone_ref_total
    { metadata := { name := none, «namespace» := none }
      spec := { zone_refs := [], config_map_name := none }
      status := none }).2.mp rfl
